import Mathlib

/-!
Shallow embedding of `stress-test.py`, a minimal HTTP load-testing utility.

The Python program dispatches `total_requests` GET requests against a chosen
URL through a `ThreadPoolExecutor` bounded by `num_threads`, tallies shared
`success_count` / `failure_count` counters, and a run controller (`run_test`)
orchestrates one run: validation, counter reset, a periodic progress reporter,
dispatch, and finalization (elapsed time, transactions per minute, status).

The embedding models the effectful parts explicitly:
 * an HTTP response (or transport exception) is an `Outcome`, and the network
   is a responder function `Nat → Outcome` giving the outcome of the i-th
   submitted request;
 * the shared counters are a `Counters` record threaded through the calls;
 * each issued request is recorded as an `HttpRequest` (URL and timeout);
 * `run_test` is a function from its inputs (selected URL, the two text
   fields, the responder, the elapsed wall-clock time) and the prior UI state
   to a `RunResult`: the final state, an ordered event trace, and whether an
   exception escaped the handler.
-/

/-- An HTTP request as issued by `requests.get(url, timeout=5)`:
the target URL and the per-request timeout in seconds. -/
structure HttpRequest where
  url : String
  timeout : Nat
deriving DecidableEq, Repr

/-- The observable outcome of one `requests.get` call: a response carrying a
status code, or a raised exception (timeout, connection error, DNS failure). -/
inductive Outcome where
  | ok (status : Int)
  | exn
deriving DecidableEq, Repr

/-- The shared mutable counters of the program
(globals `success_count` and `failure_count`). -/
structure Counters where
  success_count : Nat
  failure_count : Nat
deriving DecidableEq, Repr

/-- Model of `call_endpoint(url)` (lines 111-120): issues one GET with a 5-second
timeout and classifies the outcome — status in `[200, 400)` increments the
success counter, any other status or any exception increments the failure
counter.  The function is total: no exception propagates out of it.
Returns the updated counters together with the request it issued. -/
def call_endpoint (url : String) (o : Outcome) (c : Counters) :
    Counters × HttpRequest :=
  let req : HttpRequest := { url := url, timeout := 5 }
  match o with
  | .ok status =>
    if 200 ≤ status ∧ status < 400 then
      ({ c with success_count := c.success_count + 1 }, req)
    else
      ({ c with failure_count := c.failure_count + 1 }, req)
  | .exn => ({ c with failure_count := c.failure_count + 1 }, req)

/-- Sequentially runs `call_endpoint` once per outcome in the list, threading
the counters and collecting the issued requests.  This is the completed work
of the futures submitted in `background_test`: counter increments commute, so
the final totals do not depend on the completion order of the pool. -/
def run_calls (url : String) (outcomes : List Outcome) (c : Counters) :
    Counters × List HttpRequest :=
  match outcomes with
  | [] => (c, [])
  | o :: rest =>
    let step := call_endpoint url o c
    let next := run_calls url rest step.1
    (next.1, step.2 :: next.2)

/-- The message of the `ValueError` raised by
`ThreadPoolExecutor(max_workers=n)` when `n <= 0`. -/
def poolErrorMsg : String := "max_workers must be greater than 0"

/-- Model of `background_test(url, total_requests, num_threads)` (lines 123-127):
creates a `ThreadPoolExecutor` bounded by `num_threads` (which raises when
`num_threads <= 0`), submits exactly `total_requests` calls of
`call_endpoint url` (`range` of a negative total is empty), and blocks until
every future has completed — the returned counters reflect all of them. -/
def background_test (url : String) (respond : Nat → Outcome)
    (total_requests num_threads : Int) (c : Counters) :
    Except String (Counters × List HttpRequest) :=
  if num_threads ≤ 0 then
    Except.error poolErrorMsg
  else
    Except.ok (run_calls url ((List.range total_requests.toNat).map respond) c)

/-- Numeric value of a list of decimal digit characters. -/
def digitsVal (cs : List Char) : Nat :=
  cs.foldl (fun a ch => a * 10 + (ch.toNat - 48)) 0

/-- Surrounding whitespace removed from a character list. -/
def stripChars (cs : List Char) : List Char :=
  ((cs.dropWhile Char.isWhitespace).reverse.dropWhile Char.isWhitespace).reverse

/-- Python's `int(s)` conversion on a decimal string: optional surrounding
whitespace, an optional sign, then a nonempty digit run; any other shape
raises `ValueError`, modelled as `none`. -/
def pyInt (s : String) : Option Int :=
  match stripChars s.toList with
  | [] => none
  | ch :: cs =>
    if ch = '-' then
      if !cs.isEmpty && cs.all Char.isDigit then
        some (-(digitsVal cs : Int))
      else none
    else if ch = '+' then
      if !cs.isEmpty && cs.all Char.isDigit then
        some (digitsVal cs : Int)
      else none
    else if (ch :: cs).all Char.isDigit then
      some (digitsVal (ch :: cs) : Int)
    else none

/-- Value `duration_minutes` (line 176): the elapsed time in minutes, replaced by
the fixed minimum `1` when the elapsed time is not positive. -/
def duration_minutes (elapsed : ℚ) : ℚ :=
  if 0 < elapsed then elapsed / 60 else 1

/-- Transactions per minute (line 177): completed transactions divided by
`duration_minutes elapsed`. -/
def compute_tpm (total_tx : ℕ) (elapsed : ℚ) : ℚ :=
  (total_tx : ℚ) / duration_minutes elapsed

/-- The fixed base host prepended to each discovered path (line 45). -/
def base_url : String := "http://home.dev.com"

/-- Model of `fetch_splunk_paths` (lines 27-55): runs the Splunk search and builds one
URL per returned path by concatenating `base_url` with the path.  The query is
abstracted as its observable result: `Except.ok paths` when the search
succeeds and yields those path strings, `Except.error e` when any step raises.
On any exception the function prints diagnostics and returns the empty list —
it never propagates the error. -/
def fetch_splunk_paths (query : Except String (List String)) : List String :=
  match query with
  | .ok paths => paths.map (fun p => base_url ++ p)
  | .error _ => []

/-- The hardcoded fallback endpoint list (lines 64-73). -/
def default_url_options : List String :=
  [ "http://home.dev.com/api/flask-test/v1/info",
    "http://home.dev.com/api/fastapi-test/v1/info",
    "http://home.dev.com/api/fastapi-test-revert/v1/info",
    "http://home.dev.com/api/robert/v1/info",
    "http://home.dev.com/api/flask-test/v1/sample",
    "http://home.dev.com/api/fastapi-test/v1/sample",
    "http://home.dev.com/api/fastapi-test-revert/v1/sample",
    "http://home.dev.com/api/robert/v1/sample" ]

/-- Model of the URL-option setup coroutine (lines 58-76): takes the URLs produced by
`fetch_splunk_paths` and falls back to `default_url_options` when that list is
empty (Splunk failure or empty result set).  The returned list is what the
select widget is populated with. -/
def init_url_options (query : Except String (List String)) : List String :=
  let url_options := fetch_splunk_paths query
  if url_options.isEmpty then default_url_options else url_options

/-- The status displayed by `status_label`. -/
inductive Status where
  | IDLE
  | RUNNING
  | COMPLETE
deriving DecidableEq, Repr

/-- The mutable state of the application visible to `run_test`: the shared
counters, the `is_running` flag, the labels (numeric content only), and the
enabled/disabled state of the two buttons.  `reporter_running` records whether
the periodic `update_ui_periodically` task is alive. -/
structure AppState where
  success_count : Nat
  failure_count : Nat
  is_running : Bool
  status : Status
  start_enabled : Bool
  refresh_enabled : Bool
  reporter_running : Bool
  success_label : String
  failure_label : String
  time_minutes : Int
  time_seconds : Int
  tpm : ℚ
deriving DecidableEq, Repr

/-- Observable events of one `run_test` invocation, in program order. -/
inductive Event where
  | notify (msg : String)
  | resetCounters
  | controlsDisabled
  | reporterStart
  | dispatchStart
  | dispatchEnd
  | reporterStop
  | finalRead (success failure : Nat)
  | controlsEnabled
deriving DecidableEq, Repr

/-- The result of one `run_test` invocation: the final state, the ordered
event trace, and the exception that escaped the handler, if any. -/
structure RunResult where
  state : AppState
  trace : List Event
  raised : Option String
deriving Repr

/-- Message of the validation notification (line 134). -/
def selectEndpointMsg : String := "Please select an API endpoint"

/-- Message of the dispatch-failure notification (line 169). -/
def testFailedMsg (e : String) : String := "Test failed: " ++ e

/-- Message of the `ValueError` raised by `int()` on a non-integer string. -/
def intValueErrorMsg : String := "invalid literal for int() with base 10"

/-- Text of the success label for a given count. -/
def successLabelText (n : Nat) : String := "Total Success: " ++ toString n

/-- Text of the failure label for a given count. -/
def failureLabelText (n : Nat) : String := "Total Failures: " ++ toString n

/-- The `finally` block of `run_test` (lines 170-194): computes elapsed
minutes and seconds (Python `//` and `%` on a nonnegative float, then `int`
truncation, i.e. floors), computes transactions per minute from the current
counters, stops the progress reporter and awaits it, performs the final
counter read into the labels, marks the run COMPLETE and re-enables both
buttons.  Returns the new state and the events it appends. -/
def finalize_run (st : AppState) (elapsed : ℚ) : AppState × List Event :=
  let minutes : Int := ⌊elapsed / 60⌋
  let seconds : Int := ⌊elapsed - 60 * (⌊elapsed / 60⌋ : ℚ)⌋
  let total_tx := st.success_count + st.failure_count
  let tpm := compute_tpm total_tx elapsed
  ({ st with
      reporter_running := false,
      success_label := successLabelText st.success_count,
      failure_label := failureLabelText st.failure_count,
      time_minutes := minutes,
      time_seconds := seconds,
      tpm := tpm,
      status := Status.COMPLETE,
      is_running := false,
      start_enabled := true,
      refresh_enabled := true },
   [Event.reporterStop,
    Event.finalRead st.success_count st.failure_count,
    Event.controlsEnabled])

/-- The state after lines 137-150 of `run_test`: both counters reset to zero,
labels reset, status RUNNING, both buttons disabled. -/
def running_state (st : AppState) : AppState :=
  { st with
      success_count := 0,
      failure_count := 0,
      is_running := true,
      success_label := successLabelText 0,
      failure_label := failureLabelText 0,
      status := Status.RUNNING,
      time_minutes := 0,
      time_seconds := 0,
      tpm := 0,
      start_enabled := false,
      refresh_enabled := false }

/-- Model of `run_test` (lines 130-194).  Inputs: the select widget's value (`none`
models Python `None`), the raw text of the two numeric fields, the network
responder, the elapsed wall-clock time measured around the dispatch, and the
prior state.  Control flow follows the source exactly: validation guard
(Python falsiness: `None` or empty string), counter/label reset and control
disabling, the two `int()` conversions (whose `ValueError` is outside the
`try` and escapes the handler), reporter start, dispatch inside
`try/except/finally`, and finalization. -/
def run_test (url_value : Option String) (request_value thread_value : String)
    (respond : Nat → Outcome) (elapsed : ℚ) (st : AppState) : RunResult :=
  match url_value with
  | none =>
    { state := st, trace := [Event.notify selectEndpointMsg], raised := none }
  | some url =>
    if url.isEmpty then
      { state := st, trace := [Event.notify selectEndpointMsg], raised := none }
    else
      -- lines 137-150: reset counters and labels, enter RUNNING, disable controls
      let st1 : AppState := running_state st
      let trace1 := [Event.resetCounters, Event.controlsDisabled]
      -- lines 153-154: the int() conversions; a ValueError here escapes run_test
      match pyInt request_value, pyInt thread_value with
      | none, _ =>
        { state := st1, trace := trace1, raised := some intValueErrorMsg }
      | some _, none =>
        { state := st1, trace := trace1, raised := some intValueErrorMsg }
      | some total, some threads =>
        -- lines 162-163: start the periodic progress reporter
        let st2 := { st1 with reporter_running := true }
        let trace2 := trace1 ++ [Event.reporterStart]
        -- lines 165-169: dispatch, from the just-reset global counters
        match background_test url respond total threads
            { success_count := 0, failure_count := 0 } with
        | .ok res =>
          let st3 := { st2 with
              success_count := res.1.success_count,
              failure_count := res.1.failure_count }
          let fin := finalize_run st3 elapsed
          { state := fin.1,
            trace := trace2 ++ [Event.dispatchStart, Event.dispatchEnd] ++ fin.2,
            raised := none }
        | .error e =>
          let fin := finalize_run st2 elapsed
          { state := fin.1,
            trace := trace2 ++ [Event.dispatchStart, Event.notify (testFailedMsg e)]
              ++ fin.2,
            raised := none }

/-- A real-time execution schedule of the futures submitted to the
`ThreadPoolExecutor` in `background_test`: for each task index, the worker
thread that executes it and the half-open interval `[start, finish)` during
which it runs. -/
structure PoolSchedule where
  worker : Nat → Nat
  start : Nat → ℚ
  finish : Nat → ℚ

/-- Task `i` of the schedule is running at time `t`. -/
def PoolSchedule.runningAt (s : PoolSchedule) (t : ℚ) (i : Nat) : Prop :=
  s.start i ≤ t ∧ t < s.finish i

instance (s : PoolSchedule) (t : ℚ) : DecidablePred (s.runningAt t) :=
  fun i => inferInstanceAs (Decidable (s.start i ≤ t ∧ t < s.finish i))

/-- The schedule is a possible execution of a pool of `max_workers` worker
threads on `numTasks` tasks: every task runs on one of the `max_workers`
workers, and two distinct tasks on the same worker never overlap in time
(a thread executes one submitted call at a time). -/
def PoolSchedule.valid (s : PoolSchedule) (max_workers numTasks : Nat) : Prop :=
  (∀ i, i < numTasks → s.worker i < max_workers) ∧
  (∀ i, i < numTasks → ∀ j, j < numTasks → i ≠ j → s.worker i = s.worker j →
    s.finish i ≤ s.start j ∨ s.finish j ≤ s.start i)

instance (s : PoolSchedule) (m n : Nat) : Decidable (s.valid m n) := by
  unfold PoolSchedule.valid
  infer_instance

/-- A responder whose every request gets an HTTP 200 response. -/
def respond200 : Nat → Outcome := fun _ => Outcome.ok 200

/-- A responder whose every request raises a transport exception. -/
def respondExn : Nat → Outcome := fun _ => Outcome.exn

/-- A concrete endpoint, used to instantiate the theorems below. -/
def sampleUrl : String := "http://home.dev.com/api/flask-test/v1/info"

/-- A concrete schedule: a single worker runs task `i` during `[i, i+1)`. -/
def sampleSchedule : PoolSchedule :=
  { worker := fun _ => 0,
    start := fun i => (i : ℚ),
    finish := fun i => ((i + 1 : ℕ) : ℚ) }

/-- The application state as it stands before a run. -/
def initialState : AppState :=
  { success_count := 0,
    failure_count := 0,
    is_running := false,
    status := Status.IDLE,
    start_enabled := true,
    refresh_enabled := true,
    reporter_running := false,
    success_label := successLabelText 0,
    failure_label := failureLabelText 0,
    time_minutes := 0,
    time_seconds := 0,
    tpm := 0 }

/-- Concrete field text parsing as 2. -/
def twoStr : String := "2"

/-- Concrete field text parsing as 1. -/
def oneStr : String := "1"

/-- Concrete field text parsing as 0. -/
def zeroStr : String := "0"

/-- Concrete field text that `int()` rejects. -/
def badStr : String := "ten"

/-- A concrete Splunk-side exception message. -/
def sampleErr : String := "connection refused"

/-! ## Helper lemmas -/

/-- Each `call_endpoint` call increments exactly one of the two counters. -/
theorem call_endpoint_counts (url : String) (o : Outcome) (c : Counters) :
    (call_endpoint url o c).1.success_count + (call_endpoint url o c).1.failure_count
      = c.success_count + c.failure_count + 1 := by
  cases o with
  | ok s =>
    by_cases h : 200 ≤ s ∧ s < 400 <;> simp [call_endpoint, h] <;> omega
  | exn => simp [call_endpoint]; omega

/-- Each `call_endpoint` call issues a single GET against `url` with a
5-second timeout. -/
theorem call_endpoint_request (url : String) (o : Outcome) (c : Counters) :
    (call_endpoint url o c).2 = { url := url, timeout := 5 } := by
  cases o with
  | ok s => by_cases h : 200 ≤ s ∧ s < 400 <;> simp [call_endpoint, h]
  | exn => rfl

/-- Running a batch of calls adds exactly one completed transaction per
outcome to the combined counter total. -/
theorem run_calls_counts (url : String) (os : List Outcome) (c : Counters) :
    (run_calls url os c).1.success_count + (run_calls url os c).1.failure_count
      = c.success_count + c.failure_count + os.length := by
  induction os generalizing c with
  | nil => simp [run_calls]
  | cons o rest ih =>
    simp only [run_calls, List.length_cons]
    rw [ih]
    have h := call_endpoint_counts url o c
    omega

/-- A batch of calls issues one identical request per outcome. -/
theorem run_calls_requests (url : String) (os : List Outcome) (c : Counters) :
    (run_calls url os c).2 = List.replicate os.length { url := url, timeout := 5 } := by
  induction os generalizing c with
  | nil => rfl
  | cons o rest ih =>
    simp [run_calls, ih, call_endpoint_request, List.replicate]

/-- With a positive thread count, `background_test` completes the whole batch. -/
theorem background_test_pos (url : String) (respond : Nat → Outcome)
    (total num_threads : Int) (c : Counters) (h : 0 < num_threads) :
    background_test url respond total num_threads c
      = Except.ok (run_calls url ((List.range total.toNat).map respond) c) := by
  unfold background_test
  rw [if_neg (by omega)]

/-- A successful `background_test` result is exactly the completed batch. -/
theorem background_test_ok_inv (url : String) (respond : Nat → Outcome)
    (total num_threads : Int) (c : Counters) (res : Counters × List HttpRequest)
    (h : background_test url respond total num_threads c = Except.ok res) :
    res = run_calls url ((List.range total.toNat).map respond) c := by
  unfold background_test at h
  by_cases hn : num_threads ≤ 0
  · rw [if_pos hn] at h
    exact absurd h (by simp)
  · rw [if_neg hn] at h
    exact (Except.ok.inj h).symm

/-! ## Claim theorems -/

/-- C1: for every run with a selected URL and valid positive integer
`total_requests` and `num_threads` field values, after dispatch completes —
`background_test` returns and `run_test` finishes without an escaping
exception — the final success and failure counters, which were reset to zero
at run start, sum to exactly `total_requests`. -/
theorem run_totals_eq_total_requests (url request_value thread_value : String)
    (respond : Nat → Outcome) (elapsed : ℚ) (st : AppState) (total threads : Int)
    (hurl : url.isEmpty = false)
    (hreq : pyInt request_value = some total)
    (hthr : pyInt thread_value = some threads)
    (_htotal : 0 < total) (hthreads : 0 < threads) :
    (run_test (some url) request_value thread_value respond elapsed st).state.success_count
      + (run_test (some url) request_value thread_value respond elapsed st).state.failure_count
      = total.toNat
    ∧ (run_test (some url) request_value thread_value respond elapsed st).raised = none := by
  have hbt := background_test_pos url respond total threads
    { success_count := 0, failure_count := 0 } hthreads
  have hcounts := run_calls_counts url ((List.range total.toNat).map respond)
    { success_count := 0, failure_count := 0 }
  simp only [List.length_map, List.length_range] at hcounts
  simp [run_test, hurl, hreq, hthr, hbt, finalize_run, running_state]
  omega

/-- Witness for C1 at a concrete run of 2 requests over 1 thread. -/
theorem run_totals_eq_total_requests_witness :
    (run_test (some sampleUrl) twoStr oneStr respond200 1 initialState).state.success_count
      + (run_test (some sampleUrl) twoStr oneStr respond200 1 initialState).state.failure_count
      = (2 : Int).toNat
    ∧ (run_test (some sampleUrl) twoStr oneStr respond200 1 initialState).raised = none :=
  run_totals_eq_total_requests sampleUrl twoStr oneStr respond200 1 initialState 2 1
    (by decide) (by decide) (by decide) (by decide) (by decide)

/-- C2: each request increments exactly one counter — success on a status in
`[200, 400)`, failure on any other status and on any raised exception; no
outcome touches both or neither, and `call_endpoint` is total, so no
per-request exception propagates out of it. -/
theorem call_endpoint_classification (url : String) (c : Counters) :
    (∀ s : Int, 200 ≤ s → s < 400 →
      (call_endpoint url (Outcome.ok s) c).1
        = { success_count := c.success_count + 1, failure_count := c.failure_count })
    ∧ (∀ s : Int, ¬(200 ≤ s ∧ s < 400) →
      (call_endpoint url (Outcome.ok s) c).1
        = { success_count := c.success_count, failure_count := c.failure_count + 1 })
    ∧ (call_endpoint url Outcome.exn c).1
        = { success_count := c.success_count, failure_count := c.failure_count + 1 } := by
  refine ⟨fun s h1 h2 => ?_, fun s h => ?_, rfl⟩
  · simp [call_endpoint, h1, h2]
  · simp only [call_endpoint]
    rw [if_neg h]

/-- Witness for C2: a 200 response from the zero counters. -/
theorem call_endpoint_classification_witness :
    (call_endpoint sampleUrl (Outcome.ok 200)
        { success_count := 0, failure_count := 0 }).1
      = { success_count := 1, failure_count := 0 } :=
  (call_endpoint_classification sampleUrl
      { success_count := 0, failure_count := 0 }).1 200 (by decide) (by decide)

/-- C7: a successful dispatch issued exactly `total_requests` units of work,
each a single GET against `url` with a 5-second timeout, and the counters it
hands back account for every submitted unit — `background_test` only returns
once the whole batch has completed. -/
theorem dispatch_submits_exactly (url : String) (respond : Nat → Outcome)
    (total num_threads : Int) (c : Counters) (res : Counters × List HttpRequest)
    (h : background_test url respond total num_threads c = Except.ok res) :
    res.2.length = total.toNat
    ∧ (∀ req ∈ res.2, req = { url := url, timeout := 5 })
    ∧ res.1.success_count + res.1.failure_count
        = c.success_count + c.failure_count + total.toNat := by
  have hres := background_test_ok_inv url respond total num_threads c res h
  subst hres
  refine ⟨?_, ?_, ?_⟩
  · rw [run_calls_requests]
    simp
  · intro req hreq
    rw [run_calls_requests] at hreq
    exact List.eq_of_mem_replicate hreq
  · rw [run_calls_counts]
    simp

/-- Witness for C7: a concrete dispatch of 2 requests over 1 thread. -/
theorem dispatch_submits_exactly_witness :
    ((⟨2, 0⟩, [⟨sampleUrl, 5⟩, ⟨sampleUrl, 5⟩]) :
        Counters × List HttpRequest).2.length = (2 : Int).toNat
    ∧ (∀ req ∈ ((⟨2, 0⟩, [⟨sampleUrl, 5⟩, ⟨sampleUrl, 5⟩]) :
        Counters × List HttpRequest).2, req = { url := sampleUrl, timeout := 5 })
    ∧ (2 : Nat) + 0 = 0 + 0 + (2 : Int).toNat :=
  dispatch_submits_exactly sampleUrl respond200 2 1
    { success_count := 0, failure_count := 0 }
    (⟨2, 0⟩, [⟨sampleUrl, 5⟩, ⟨sampleUrl, 5⟩]) rfl

/-- C4: endpoint discovery never propagates an error — when the Splunk query
raises any exception or yields an empty result set, the endpoint list is the
fixed fallback list of exactly 8 URLs; otherwise it is the base host
concatenated with each returned path. -/
theorem discovery_fallback (query : Except String (List String)) :
    ((∀ paths, query ≠ Except.ok paths ∨ paths = []) →
      init_url_options query = default_url_options)
    ∧ default_url_options.length = 8
    ∧ (∀ paths, query = Except.ok paths → paths ≠ [] →
      init_url_options query = paths.map (fun p => base_url ++ p)) := by
  refine ⟨fun h => ?_, rfl, fun paths hq hne => ?_⟩
  · cases query with
    | error e => rfl
    | ok paths =>
      rcases h paths with hne | hnil
      · exact absurd rfl hne
      · subst hnil
        rfl
  · subst hq
    simp only [init_url_options, fetch_splunk_paths]
    rw [if_neg (by simpa using hne)]

/-- Witness for C4: a raised query yields the fallback list. -/
theorem discovery_fallback_witness :
    init_url_options (Except.error sampleErr) = default_url_options :=
  (discovery_fallback (Except.error sampleErr)).1 (fun _ => Or.inl (by simp))

/-- The divisor of the transactions-per-minute computation is always
strictly positive. -/
theorem duration_minutes_pos (elapsed : ℚ) : 0 < duration_minutes elapsed := by
  unfold duration_minutes
  split
  · positivity
  · norm_num

/-- Transactions per minute is a finite non-negative rational. -/
theorem compute_tpm_nonneg (total_tx : ℕ) (elapsed : ℚ) :
    0 ≤ compute_tpm total_tx elapsed := by
  unfold compute_tpm
  have h := duration_minutes_pos elapsed
  positivity

/-- C6: in every run that reaches the `finally` block, transactions per
minute is computed once, after dispatch, as the final `success_count +
failure_count` divided by `duration_minutes elapsed`; the divisor equals the
elapsed minutes when the elapsed time is positive and is the fixed minimum 1
otherwise, so it is always strictly positive — no division by zero, even for
a tiny elapsed time — and the result is a finite non-negative rational. -/
theorem tpm_well_defined (url request_value thread_value : String)
    (respond : Nat → Outcome) (elapsed : ℚ) (st : AppState) (total threads : Int)
    (hurl : url.isEmpty = false)
    (hreq : pyInt request_value = some total)
    (hthr : pyInt thread_value = some threads) :
    (run_test (some url) request_value thread_value respond elapsed st).state.tpm
      = ((run_test (some url) request_value thread_value respond elapsed st).state.success_count
          + (run_test (some url) request_value thread_value respond elapsed st).state.failure_count
          : ℚ) / duration_minutes elapsed
    ∧ 0 < duration_minutes elapsed
    ∧ 0 ≤ (run_test (some url) request_value thread_value respond elapsed st).state.tpm
    ∧ (0 < elapsed → duration_minutes elapsed = elapsed / 60)
    ∧ (elapsed ≤ 0 → duration_minutes elapsed = 1) := by
  have hform : (run_test (some url) request_value thread_value respond elapsed st).state.tpm
      = compute_tpm
          ((run_test (some url) request_value thread_value respond elapsed st).state.success_count
            + (run_test (some url) request_value thread_value respond elapsed st).state.failure_count)
          elapsed := by
    cases hbt : background_test url respond total threads
        { success_count := 0, failure_count := 0 } with
    | ok res => simp [run_test, hurl, hreq, hthr, hbt, finalize_run, running_state]
    | error e => simp [run_test, hurl, hreq, hthr, hbt, finalize_run, running_state]
  refine ⟨?_, duration_minutes_pos elapsed, ?_, fun h => ?_, fun h => ?_⟩
  · rw [hform]
    unfold compute_tpm
    norm_num
  · rw [hform]
    exact compute_tpm_nonneg _ _
  · unfold duration_minutes
    rw [if_pos h]
  · unfold duration_minutes
    rw [if_neg (by linarith)]

/-- Witness for C6 at a very small elapsed time (half a second). -/
theorem tpm_well_defined_witness :
    (run_test (some sampleUrl) twoStr oneStr respond200 (1 / 120) initialState).state.tpm
      = ((run_test (some sampleUrl) twoStr oneStr respond200 (1 / 120) initialState).state.success_count
          + (run_test (some sampleUrl) twoStr oneStr respond200 (1 / 120) initialState).state.failure_count
          : ℚ) / duration_minutes (1 / 120)
    ∧ 0 < duration_minutes (1 / 120)
    ∧ 0 ≤ (run_test (some sampleUrl) twoStr oneStr respond200 (1 / 120) initialState).state.tpm
    ∧ duration_minutes ((1 : ℚ) / 120) = (1 / 120 : ℚ) / 60 := by
  have h := tpm_well_defined sampleUrl twoStr oneStr respond200 (1 / 120) initialState
    2 1 (by decide) (by decide) (by decide)
  exact ⟨h.1, h.2.1, h.2.2.1, h.2.2.2.1 (by norm_num)⟩

/-- C9: during dispatch the pool created by `background_test` is bounded by
exactly the configured `num_threads`; in any valid schedule of the submitted
futures over that pool, the number of simultaneously running requests never
exceeds `num_threads`. -/
theorem bounded_concurrency (url : String) (respond : Nat → Outcome)
    (total num_threads : Int) (c : Counters) (res : Counters × List HttpRequest)
    (_h : background_test url respond total num_threads c = Except.ok res)
    (sched : PoolSchedule)
    (hv : sched.valid num_threads.toNat res.2.length) (t : ℚ) :
    ((Finset.range res.2.length).filter (fun i => sched.runningAt t i)).card
      ≤ num_threads.toNat := by
  have hmaps : ∀ i ∈ (Finset.range res.2.length).filter (fun i => sched.runningAt t i),
      sched.worker i ∈ Finset.range num_threads.toNat := by
    intro i hi
    rcases Finset.mem_filter.mp hi with ⟨hir, _⟩
    exact Finset.mem_range.mpr (hv.1 i (Finset.mem_range.mp hir))
  have hinj : Set.InjOn sched.worker
      ((Finset.range res.2.length).filter (fun i => sched.runningAt t i)) := by
    intro i hi j hj hw
    by_contra hne
    rcases Finset.mem_filter.mp hi with ⟨hir, hit⟩
    rcases Finset.mem_filter.mp hj with ⟨hjr, hjt⟩
    rcases hv.2 i (Finset.mem_range.mp hir) j (Finset.mem_range.mp hjr) hne hw with
      hij | hji
    · exact absurd (lt_of_lt_of_le hit.2 (le_trans hij hjt.1)) (lt_irrefl t)
    · exact absurd (lt_of_lt_of_le hjt.2 (le_trans hji hit.1)) (lt_irrefl t)
  calc ((Finset.range res.2.length).filter (fun i => sched.runningAt t i)).card
      ≤ (Finset.range num_threads.toNat).card :=
        Finset.card_le_card_of_injOn sched.worker hmaps hinj
    _ = num_threads.toNat := Finset.card_range _

/-- Witness for C9: one worker, two sequential tasks, observed at time 0. -/
theorem bounded_concurrency_witness :
    ((Finset.range 2).filter (fun i => sampleSchedule.runningAt 0 i)).card
      ≤ (1 : Int).toNat :=
  bounded_concurrency sampleUrl respond200 2 1
    { success_count := 0, failure_count := 0 }
    (⟨2, 0⟩, [⟨sampleUrl, 5⟩, ⟨sampleUrl, 5⟩]) rfl
    sampleSchedule (by constructor <;> decide) 0

/-- C3: when dispatch raises, `run_test` catches the exception (nothing
escapes), surfaces it as a notification, and the `finally` block still runs:
the reporter is stopped, elapsed time and transactions per minute are
computed from the counts at hand, the status transitions to COMPLETE and both
controls are re-enabled — the run never remains in RUNNING. -/
theorem dispatch_exception_finalizes (url request_value thread_value : String)
    (respond : Nat → Outcome) (elapsed : ℚ) (st : AppState)
    (total threads : Int) (e : String)
    (hurl : url.isEmpty = false)
    (hreq : pyInt request_value = some total)
    (hthr : pyInt thread_value = some threads)
    (hbt : background_test url respond total threads
      { success_count := 0, failure_count := 0 } = Except.error e) :
    (run_test (some url) request_value thread_value respond elapsed st).raised = none
    ∧ Event.notify (testFailedMsg e)
        ∈ (run_test (some url) request_value thread_value respond elapsed st).trace
    ∧ (run_test (some url) request_value thread_value respond elapsed st).state.status
        = Status.COMPLETE
    ∧ (run_test (some url) request_value thread_value respond elapsed st).state.is_running
        = false
    ∧ (run_test (some url) request_value thread_value respond elapsed st).state.start_enabled
        = true
    ∧ (run_test (some url) request_value thread_value respond elapsed st).state.refresh_enabled
        = true
    ∧ (run_test (some url) request_value thread_value respond elapsed st).state.reporter_running
        = false
    ∧ (run_test (some url) request_value thread_value respond elapsed st).state.tpm
        = compute_tpm
            ((run_test (some url) request_value thread_value respond elapsed st).state.success_count
              + (run_test (some url) request_value thread_value respond elapsed st).state.failure_count)
            elapsed
    ∧ (run_test (some url) request_value thread_value respond elapsed st).state.time_minutes
        = ⌊elapsed / 60⌋ := by
  simp [run_test, hurl, hreq, hthr, hbt, finalize_run, running_state]

/-- Witness for C3: a thread count of 0 makes the pool constructor raise. -/
theorem dispatch_exception_finalizes_witness :
    (run_test (some sampleUrl) twoStr zeroStr respond200 1 initialState).raised = none
    ∧ Event.notify (testFailedMsg poolErrorMsg)
        ∈ (run_test (some sampleUrl) twoStr zeroStr respond200 1 initialState).trace
    ∧ (run_test (some sampleUrl) twoStr zeroStr respond200 1 initialState).state.status
        = Status.COMPLETE
    ∧ (run_test (some sampleUrl) twoStr zeroStr respond200 1 initialState).state.is_running
        = false
    ∧ (run_test (some sampleUrl) twoStr zeroStr respond200 1 initialState).state.start_enabled
        = true
    ∧ (run_test (some sampleUrl) twoStr zeroStr respond200 1 initialState).state.refresh_enabled
        = true
    ∧ (run_test (some sampleUrl) twoStr zeroStr respond200 1 initialState).state.reporter_running
        = false
    ∧ (run_test (some sampleUrl) twoStr zeroStr respond200 1 initialState).state.tpm
        = compute_tpm
            ((run_test (some sampleUrl) twoStr zeroStr respond200 1 initialState).state.success_count
              + (run_test (some sampleUrl) twoStr zeroStr respond200 1 initialState).state.failure_count)
            1
    ∧ (run_test (some sampleUrl) twoStr zeroStr respond200 1 initialState).state.time_minutes
        = ⌊(1 : ℚ) / 60⌋ :=
  dispatch_exception_finalizes sampleUrl twoStr zeroStr respond200 1 initialState
    2 0 poolErrorMsg (by decide) (by decide) (by decide) rfl

/-- C5: starting a run with no URL selected (Python-falsy select value) only
notifies the user: the returned state is the prior state unchanged —
counters, buttons, status and reporter flag keep their values — and neither
the progress reporter nor the dispatcher is ever started. -/
theorem no_url_rejects_run (url_value : Option String)
    (request_value thread_value : String) (respond : Nat → Outcome)
    (elapsed : ℚ) (st : AppState)
    (hfalsy : ∀ u, url_value = some u → u.isEmpty = true) :
    run_test url_value request_value thread_value respond elapsed st
      = { state := st, trace := [Event.notify selectEndpointMsg], raised := none }
    ∧ Event.reporterStart
        ∉ (run_test url_value request_value thread_value respond elapsed st).trace
    ∧ Event.dispatchStart
        ∉ (run_test url_value request_value thread_value respond elapsed st).trace := by
  have hmain : run_test url_value request_value thread_value respond elapsed st
      = { state := st, trace := [Event.notify selectEndpointMsg], raised := none } := by
    cases url_value with
    | none => rfl
    | some u =>
      have hu := hfalsy u rfl
      simp [run_test, hu]
  refine ⟨hmain, ?_, ?_⟩ <;> rw [hmain] <;> simp

/-- Witness for C5: a run started with no selection at all. -/
theorem no_url_rejects_run_witness :
    run_test none twoStr oneStr respond200 1 initialState
      = { state := initialState, trace := [Event.notify selectEndpointMsg],
          raised := none }
    ∧ Event.reporterStart
        ∉ (run_test none twoStr oneStr respond200 1 initialState).trace
    ∧ Event.dispatchStart
        ∉ (run_test none twoStr oneStr respond200 1 initialState).trace :=
  no_url_rejects_run none twoStr oneStr respond200 1 initialState
    (fun _ h => nomatch h)

/-- C8: in a completed run the reporter starts before dispatch and stops only
after dispatch ends, and the final counter read performed after the reporter
has stopped carries exactly the dispatcher's final totals — the terminal
display is never a stale periodic snapshot. -/
theorem reporter_ordering_and_final_read (url request_value thread_value : String)
    (respond : Nat → Outcome) (elapsed : ℚ) (st : AppState)
    (total threads : Int) (res : Counters × List HttpRequest)
    (hurl : url.isEmpty = false)
    (hreq : pyInt request_value = some total)
    (hthr : pyInt thread_value = some threads)
    (hbt : background_test url respond total threads
      { success_count := 0, failure_count := 0 } = Except.ok res) :
    (run_test (some url) request_value thread_value respond elapsed st).trace
      = [Event.resetCounters, Event.controlsDisabled, Event.reporterStart,
         Event.dispatchStart, Event.dispatchEnd, Event.reporterStop,
         Event.finalRead res.1.success_count res.1.failure_count,
         Event.controlsEnabled]
    ∧ (run_test (some url) request_value thread_value respond elapsed st).state.success_count
        = res.1.success_count
    ∧ (run_test (some url) request_value thread_value respond elapsed st).state.failure_count
        = res.1.failure_count := by
  simp [run_test, hurl, hreq, hthr, hbt, finalize_run, running_state]

/-- Witness for C8: two requests over one thread, both succeeding. -/
theorem reporter_ordering_and_final_read_witness :
    (run_test (some sampleUrl) twoStr oneStr respond200 1 initialState).trace
      = [Event.resetCounters, Event.controlsDisabled, Event.reporterStart,
         Event.dispatchStart, Event.dispatchEnd, Event.reporterStop,
         Event.finalRead 2 0, Event.controlsEnabled]
    ∧ (run_test (some sampleUrl) twoStr oneStr respond200 1 initialState).state.success_count
        = 2
    ∧ (run_test (some sampleUrl) twoStr oneStr respond200 1 initialState).state.failure_count
        = 0 :=
  reporter_ordering_and_final_read sampleUrl twoStr oneStr respond200 1 initialState
    2 1 (⟨2, 0⟩, [⟨sampleUrl, 5⟩, ⟨sampleUrl, 5⟩])
    (by decide) (by decide) (by decide) rfl

/-- C10: with a URL selected but a non-integer request-count or thread-count
field, `run_test` resets the counters, enters RUNNING and disables both
buttons before the `int()` conversion raises; the `ValueError` is outside the
dispatch `try`, so it escapes the handler, the finalization path never runs,
and the state is left RUNNING with the controls still disabled. -/
theorem parse_error_skips_finalization (url request_value thread_value : String)
    (respond : Nat → Outcome) (elapsed : ℚ) (st : AppState)
    (hurl : url.isEmpty = false)
    (hparse : pyInt request_value = none ∨ pyInt thread_value = none) :
    (run_test (some url) request_value thread_value respond elapsed st).raised
        = some intValueErrorMsg
    ∧ (run_test (some url) request_value thread_value respond elapsed st).state.success_count
        = 0
    ∧ (run_test (some url) request_value thread_value respond elapsed st).state.failure_count
        = 0
    ∧ (run_test (some url) request_value thread_value respond elapsed st).state.status
        = Status.RUNNING
    ∧ (run_test (some url) request_value thread_value respond elapsed st).state.start_enabled
        = false
    ∧ (run_test (some url) request_value thread_value respond elapsed st).state.refresh_enabled
        = false
    ∧ (run_test (some url) request_value thread_value respond elapsed st).state.is_running
        = true
    ∧ Event.reporterStop
        ∉ (run_test (some url) request_value thread_value respond elapsed st).trace
    ∧ Event.controlsEnabled
        ∉ (run_test (some url) request_value thread_value respond elapsed st).trace := by
  have hmain : run_test (some url) request_value thread_value respond elapsed st
      = { state := running_state st,
          trace := [Event.resetCounters, Event.controlsDisabled],
          raised := some intValueErrorMsg } := by
    rcases hparse with hr | ht
    · simp [run_test, hurl, hr]
    · cases hr : pyInt request_value with
      | none => simp [run_test, hurl, hr]
      | some t => simp [run_test, hurl, hr, ht]
  rw [hmain]
  simp [running_state]

/-- Witness for C10: the request-count field holds the text `ten`. -/
theorem parse_error_skips_finalization_witness :
    (run_test (some sampleUrl) badStr oneStr respond200 1 initialState).raised
        = some intValueErrorMsg
    ∧ (run_test (some sampleUrl) badStr oneStr respond200 1 initialState).state.success_count
        = 0
    ∧ (run_test (some sampleUrl) badStr oneStr respond200 1 initialState).state.failure_count
        = 0
    ∧ (run_test (some sampleUrl) badStr oneStr respond200 1 initialState).state.status
        = Status.RUNNING
    ∧ (run_test (some sampleUrl) badStr oneStr respond200 1 initialState).state.start_enabled
        = false
    ∧ (run_test (some sampleUrl) badStr oneStr respond200 1 initialState).state.refresh_enabled
        = false
    ∧ (run_test (some sampleUrl) badStr oneStr respond200 1 initialState).state.is_running
        = true
    ∧ Event.reporterStop
        ∉ (run_test (some sampleUrl) badStr oneStr respond200 1 initialState).trace
    ∧ Event.controlsEnabled
        ∉ (run_test (some sampleUrl) badStr oneStr respond200 1 initialState).trace :=
  parse_error_skips_finalization sampleUrl badStr oneStr respond200 1 initialState
    (by decide) (Or.inl (by decide))
